import Mathlib

/-!
Verification of the Workspace Mood Monitor repository.

Shallow embedding of the parts of the code that the checked properties
concern:
  * the edge notification handler of the LED actuator
    (esp32_sensornode/src/led_actuator.cpp),
  * the oneM2M resource-creation helpers and their status-code handling
    (onem2m.cpp, led_actuator.cpp),
  * the sensor-task report loops (lux_sensor.cpp, audio_sensor.cpp,
    occupancy_sensor.cpp),
  * the PostgreSQL schema of the mood and telemetry fact tables and of the
    ingest queue (cloud/postgres/migrations, init/queue SQL),
  * the calibration step of the mood scoring service (modelled from the
    spec where the service source is absent from the tree).
-/

namespace MoodMonitor

/-! ## JSON values

Embedding of the parsed notification bodies handled through ArduinoJson in
led_actuator.cpp.  A body that fails `deserializeJson` is represented as
`none` at the call sites below. -/

/-- A parsed JSON document. -/
inductive Json where
  | null : Json
  | bool : Bool → Json
  | num : Int → Json
  | str : String → Json
  | obj : List (String × Json) → Json
deriving Repr

/-- Field access `doc[k]`: defined on objects, `none` otherwise (ArduinoJson
yields an unbound variant in that case). -/
def Json.lookup : Json → String → Option Json
  | .obj fields, k => List.lookup k fields
  | _, _ => none

/-- `doc.containsKey(k)` of ArduinoJson. -/
def Json.containsKey (j : Json) (k : String) : Bool :=
  (j.lookup k).isSome

/-- The comparison `variant == true` of ArduinoJson, applied to a possibly
missing field: true exactly when the field holds the boolean `true`. -/
def Json.isTrue : Option Json → Bool
  | some (.bool b) => b
  | _ => false

/-- Conversion of a variant to `bool` (`as<bool>()` applied to a possibly
missing field): a boolean yields itself, a number is true when nonzero,
anything else (including a missing field) yields `false`. -/
def Json.asBool : Option Json → Bool
  | some (.bool b) => b
  | some (.num n) => n != 0
  | _ => false

/-- Conversion of a variant to `int` (`as<int>()` applied to a possibly
missing field): a number yields itself, a boolean yields 0/1, anything else
(including a missing field) yields 0. -/
def Json.asInt : Option Json → Int
  | some (.num n) => n
  | some (.bool b) => if b then 1 else 0
  | _ => 0

/-! ## Actuator state (led_actuator.cpp)

The mutex-protected globals `lampOn`, `redValue`, `greenValue`, `blueValue`;
the red/green/blue channels are `uint8_t`, so assignments from `int` reduce
modulo 256. -/

/-- The LED actuator state guarded by `ledMutex`. -/
structure ActuatorState where
  lampOn : Bool
  redValue : Nat
  greenValue : Nat
  blueValue : Nat
deriving Repr, DecidableEq

/-- Implicit `int` to `uint8_t` conversion at the `setLEDState` call sites. -/
def toUInt8 (i : Int) : Nat :=
  (i % 256).toNat

/-- `setLEDState(on, r, g, b)`: overwrite the whole state. -/
def setLEDState (onState : Bool) (r g b : Nat) : ActuatorState :=
  { lampOn := onState, redValue := r, greenValue := g, blueValue := b }

def keySgn : String := "m2m:sgn"
def keyVrq : String := "vrq"
def keyNev : String := "nev"
def keyRep : String := "rep"
def keyBinSh : String := "cod:binSh"
def keyState : String := "state"
def keyColor : String := "cod:color"
def keyRed : String := "red"
def keyGreen : String := "green"
def keyBlue : String := "blue"

/-- `handleNotification()` of led_actuator.cpp.  The argument is the parsed
request body (`none` when `deserializeJson` fails) and the current actuator
state; the result is the HTTP status code sent and the state afterwards.
Mirrors the source: a parse failure answers 400; a verification request
(`vrq == true` inside `m2m:sgn`) answers 200 before touching the state; a
content-change event applies the `cod:binSh` power field and then the
`cod:color` channels, each only when present; every parsed body is finally
answered 200. -/
def handleNotification (body : Option Json) (s : ActuatorState) :
    Nat × ActuatorState :=
  match body with
  | none => (400, s)
  | some doc =>
    if doc.containsKey keySgn then
      let sgn := (doc.lookup keySgn).getD .null
      if sgn.containsKey keyVrq && Json.isTrue (sgn.lookup keyVrq) then
        (200, s)
      else
        let nev := (sgn.lookup keyNev).getD .null
        if sgn.containsKey keyNev && nev.containsKey keyRep then
          let rep := (nev.lookup keyRep).getD .null
          let s1 :=
            if rep.containsKey keyBinSh then
              let powerState := Json.asBool (((rep.lookup keyBinSh).getD .null).lookup keyState)
              setLEDState powerState s.redValue s.greenValue s.blueValue
            else s
          let s2 :=
            if rep.containsKey keyColor then
              let c := (rep.lookup keyColor).getD .null
              let red := Json.asInt (c.lookup keyRed)
              let green := Json.asInt (c.lookup keyGreen)
              let blue := Json.asInt (c.lookup keyBlue)
              setLEDState s1.lampOn (toUInt8 red) (toUInt8 green) (toUInt8 blue)
            else s1
          (200, s2)
        else (200, s)
    else (200, s)

end MoodMonitor

namespace MoodMonitor

/-- C3: the edge notification handler answers 400 exactly on unparseable
bodies; every parseable body — with or without an `m2m:sgn` object, with or
without power/color fields — is answered 200. -/
theorem handler_status_400_iff_unparseable (s : ActuatorState) (j : Json) :
    (handleNotification none s).1 = 400 ∧ (handleNotification (some j) s).1 = 200 := by
  refine ⟨rfl, ?_⟩
  simp only [handleNotification]
  repeat' split
  all_goals rfl

/-- C2: a subscription-verification handshake (an `m2m:sgn` object whose
`vrq` field is `true`) is acknowledged with 200 and leaves the actuator
state untouched. -/
theorem handler_verification_no_side_effect (s : ActuatorState) (doc sgn : Json)
    (hdoc : doc.lookup keySgn = some sgn)
    (hvrq : sgn.lookup keyVrq = some (.bool true)) :
    handleNotification (some doc) s = (200, s) := by
  simp [handleNotification, Json.containsKey, Json.isTrue, hdoc, hvrq]

/-- Witness for C2 at a concrete handshake body and state. -/
theorem handler_verification_no_side_effect_witness :
    handleNotification
        (some (.obj [(keySgn, .obj [(keyVrq, .bool true)])]))
        ⟨true, 1, 2, 3⟩ = (200, ⟨true, 1, 2, 3⟩) :=
  handler_verification_no_side_effect ⟨true, 1, 2, 3⟩
    (.obj [(keySgn, .obj [(keyVrq, .bool true)])])
    (.obj [(keyVrq, .bool true)]) rfl rfl

/-- C9: a content-change event carrying only the power-switch module sets
`lampOn` from its `state` field and leaves the three color channels exactly
as they were; one carrying only the color module sets the three channels
from its `red`/`green`/`blue` fields and leaves `lampOn` exactly as it
was. -/
theorem handler_single_field_frame :
    (∀ (s : ActuatorState) (doc sgn nev rep binSh : Json),
      doc.lookup keySgn = some sgn →
      sgn.lookup keyVrq = none →
      sgn.lookup keyNev = some nev →
      nev.lookup keyRep = some rep →
      rep.lookup keyBinSh = some binSh →
      rep.lookup keyColor = none →
      handleNotification (some doc) s =
        (200, { s with lampOn := Json.asBool (binSh.lookup keyState) })) ∧
    (∀ (s : ActuatorState) (doc sgn nev rep c : Json),
      doc.lookup keySgn = some sgn →
      sgn.lookup keyVrq = none →
      sgn.lookup keyNev = some nev →
      nev.lookup keyRep = some rep →
      rep.lookup keyBinSh = none →
      rep.lookup keyColor = some c →
      handleNotification (some doc) s =
        (200, { s with
                  redValue := toUInt8 (Json.asInt (c.lookup keyRed)),
                  greenValue := toUInt8 (Json.asInt (c.lookup keyGreen)),
                  blueValue := toUInt8 (Json.asInt (c.lookup keyBlue)) })) := by
  constructor
  · intro s doc sgn nev rep binSh hdoc hvrq hnev hrep hbin hcol
    obtain ⟨a, r, g, b⟩ := s
    simp [handleNotification, Json.containsKey, Json.isTrue, setLEDState,
      hdoc, hvrq, hnev, hrep, hbin, hcol]
  · intro s doc sgn nev rep c hdoc hvrq hnev hrep hbin hcol
    obtain ⟨a, r, g, b⟩ := s
    simp [handleNotification, Json.containsKey, Json.isTrue, setLEDState,
      hdoc, hvrq, hnev, hrep, hbin, hcol]

/-- Witness for C9: a power-only event at a concrete body flips `lampOn`
and keeps the channels (7, 8, 9); a color-only event at a concrete body
sets the channels to (10, 20, 30) and keeps `lampOn` true. -/
theorem handler_single_field_frame_witness :
    handleNotification
        (some (.obj [(keySgn, .obj [(keyNev, .obj [(keyRep,
          .obj [(keyBinSh, .obj [(keyState, .bool true)])])])])]))
        ⟨false, 7, 8, 9⟩ = (200, ⟨true, 7, 8, 9⟩) ∧
    handleNotification
        (some (.obj [(keySgn, .obj [(keyNev, .obj [(keyRep,
          .obj [(keyColor, .obj [(keyRed, .num 10), (keyGreen, .num 20),
            (keyBlue, .num 30)])])])])]))
        ⟨true, 0, 0, 0⟩ = (200, ⟨true, 10, 20, 30⟩) :=
  ⟨handler_single_field_frame.1 ⟨false, 7, 8, 9⟩ _ _ _ _
      (.obj [(keyState, .bool true)]) rfl rfl rfl rfl rfl rfl,
   handler_single_field_frame.2 ⟨true, 0, 0, 0⟩ _ _ _ _
      (.obj [(keyRed, .num 10), (keyGreen, .num 20), (keyBlue, .num 30)])
      rfl rfl rfl rfl rfl rfl⟩

/-! ## Status-code handling of the oneM2M helpers

Resource-creation helpers (`createContainer` in onem2m.cpp and
`createLampDevice`, `createBinarySwitch`, `createColor`,
`createSubscription` in led_actuator.cpp) all decide success with the
test `statusCode == 201 || statusCode == 409`; the update helpers
(`updateLuxValue`, `updateAudioValue`, `updateOccupancyValue`,
`updateLampSwitch`) use `statusCode == 200 || statusCode == 204`; and
`waitForCSE` accepts `statusCode == 200 || statusCode == 403`. -/

/-- Success test shared by every resource-creation helper. -/
def creationSuccess (statusCode : Int) : Bool :=
  statusCode == 201 || statusCode == 409

/-- Return value of `createContainer` as a function of the status code. -/
def createContainerSuccess (statusCode : Int) : Bool :=
  creationSuccess statusCode

/-- Return value of `createSubscription` as a function of the status code. -/
def createSubscriptionSuccess (statusCode : Int) : Bool :=
  creationSuccess statusCode

/-- Return value of `createLampDevice` as a function of the status code. -/
def createLampDeviceSuccess (statusCode : Int) : Bool :=
  creationSuccess statusCode

/-- Return value of `updateLuxValue` as a function of the status code. -/
def updateSuccess (statusCode : Int) : Bool :=
  statusCode == 200 || statusCode == 204

/-- Return value of one `waitForCSE` probe as a function of the status code. -/
def waitForCSEReady (statusCode : Int) : Bool :=
  statusCode == 200 || statusCode == 403

/-- Counterexample to C4 as stated: a 200 (or 204) response to a
resource-creation request is treated as a failure by every creation helper,
not as a success. -/
theorem creation_200_not_success :
    createContainerSuccess 200 = false ∧ createSubscriptionSuccess 204 = false ∧
      createLampDeviceSuccess 200 = false := by
  decide

/-- C4 amended: every resource-creation helper treats exactly the codes 201
and 409 (already exists) as success, and every other response code —
including 200 and 204 — as an error; the update helpers treat exactly 200
and 204 as success. -/
theorem creation_success_iff (c : Int) :
    (createContainerSuccess c = true ↔ c = 201 ∨ c = 409) ∧
    (createSubscriptionSuccess c = true ↔ c = 201 ∨ c = 409) ∧
    (createLampDeviceSuccess c = true ↔ c = 201 ∨ c = 409) ∧
    (updateSuccess c = true ↔ c = 200 ∨ c = 204) := by
  simp [createContainerSuccess, createSubscriptionSuccess,
    createLampDeviceSuccess, creationSuccess, updateSuccess]

/-! ## Sensor report loops

One iteration of the `while (true)` body of `LuxSensorTask`,
`AudioSensorTask` and `OccupancySensorTask`, as a function of the
task-local state, the fresh sensor reading, and whether the oneM2M update
call succeeds.  Floating-point readings are embedded as rationals. -/

/-- `LUX_THRESHOLD` of config.h. -/
def LUX_THRESHOLD : ℚ := 1

/-- `AUDIO_THRESHOLD` of config.h. -/
def AUDIO_THRESHOLD : ℚ := 2

/-- Initial value of `luxState.lastReportedLux` (lux_sensor.cpp). -/
def luxInitLastReported : ℚ := -1

/-- Initial value of `audioState.lastReportedLevel` (audio_sensor.cpp). -/
def audioInitLastReported : ℚ := -1

/-- One tick of `LuxSensorTask` after a successful sensor read: reports when
`lastReported < 0` or `abs(currentLux - lastReported) >= LUX_THRESHOLD`, and
records `lastReported := currentLux` only when `updateLuxValue` succeeded.
Returns (reported, new lastReported). -/
def luxTick (lastReported currentLux : ℚ) (pushOk : Bool) : Bool × ℚ :=
  if lastReported < 0 ∨ LUX_THRESHOLD ≤ |currentLux - lastReported| then
    (true, if pushOk then currentLux else lastReported)
  else
    (false, lastReported)

/-- One tick of `AudioSensorTask` after a successful sensor read, with the
same shape as `luxTick` but threshold `AUDIO_THRESHOLD`. -/
def audioTick (lastReported currentLevel : ℚ) (pushOk : Bool) : Bool × ℚ :=
  if lastReported < 0 ∨ AUDIO_THRESHOLD ≤ |currentLevel - lastReported| then
    (true, if pushOk then currentLevel else lastReported)
  else
    (false, lastReported)

/-- Task-local state of `OccupancySensorTask`: the `firstReport` flag
(initially true) and `lastReportedState` (initially false). -/
structure OccState where
  firstReport : Bool
  lastReportedState : Bool
deriving Repr, DecidableEq

/-- One tick of `OccupancySensorTask`: reports when `firstReport` is still
set or the current state differs from the last reported one; records the
state only when `updateOccupancyValue` succeeded, but clears `firstReport`
after any report attempt, successful or not.  Returns (reported, new
state). -/
def occTick (st : OccState) (currentState : Bool) (pushOk : Bool) :
    Bool × OccState :=
  if st.firstReport || (currentState != st.lastReportedState) then
    (true, ⟨false, if pushOk then currentState else st.lastReportedState⟩)
  else
    (false, st)

/-- Counterexample to C7 as stated: (a) with a last successfully reported
lux of 0 and a current reading of 1, the difference equals the threshold
without exceeding it, yet the task pushes a report; (b) after the
occupancy task's very first report attempt fails (so no reading was ever
successfully reported), the next tick with the same reading pushes
nothing. -/
theorem sensor_report_strict_threshold_counterexample :
    (luxTick 0 1 true).1 = true ∧
      ¬ ((0 : ℚ) < 0 ∨ LUX_THRESHOLD < |(1 : ℚ) - 0|) ∧
    (occTick ⟨true, false⟩ false false).2 = ⟨false, false⟩ ∧
      (occTick ⟨false, false⟩ false true).1 = false := by
  refine ⟨?_, ?_, ?_, ?_⟩
  · norm_num [luxTick, LUX_THRESHOLD]
  · simp [LUX_THRESHOLD]
  · rfl
  · rfl

/-- C7 amended: on every tick the lux and audio tasks push a reading if and
only if the last-reported value is still the negative sentinel or the
current reading differs from it by at least (not strictly more than) the
per-sensor threshold; the occupancy task pushes if and only if no report
was ever attempted (`firstReport`) or the state differs from the last
successfully reported one. -/
theorem sensor_report_iff (last cur : ℚ) (ok : Bool) (st : OccState) (c : Bool) :
    ((luxTick last cur ok).1 = true ↔
      (last < 0 ∨ LUX_THRESHOLD ≤ |cur - last|)) ∧
    ((audioTick last cur ok).1 = true ↔
      (last < 0 ∨ AUDIO_THRESHOLD ≤ |cur - last|)) ∧
    ((occTick st c ok).1 = true ↔
      (st.firstReport = true ∨ c ≠ st.lastReportedState)) := by
  refine ⟨?_, ?_, ?_⟩
  · unfold luxTick
    split <;> simp_all
  · unfold audioTick
    split <;> simp_all
  · unfold occTick
    split <;> simp_all

/-- C10: for the lux and audio tasks, a failed push leaves the
last-reported value unchanged; the reading therefore stays eligible and
the next tick with the same reading reports again; and starting from the
negative sentinel the first tick always reports. -/
theorem sensor_last_reported_only_on_success (last cur : ℚ) :
    ((luxTick last cur false).2 = last) ∧
    ((audioTick last cur false).2 = last) ∧
    ((luxTick luxInitLastReported cur true).1 = true) ∧
    ((audioTick audioInitLastReported cur true).1 = true) ∧
    ((luxTick last cur false).1 = true →
      (luxTick ((luxTick last cur false).2) cur true).1 = true) ∧
    ((audioTick last cur false).1 = true →
      (audioTick ((audioTick last cur false).2) cur true).1 = true) := by
  refine ⟨?_, ?_, ?_, ?_, ?_, ?_⟩
  · unfold luxTick
    split <;> rfl
  · unfold audioTick
    split <;> rfl
  · unfold luxTick
    simp [luxInitLastReported]
  · unfold audioTick
    simp [audioInitLastReported]
  · intro h
    have h2 : (luxTick last cur false).2 = last := by
      unfold luxTick
      split <;> rfl
    rw [h2]
    unfold luxTick at h ⊢
    split at h
    · simp_all
    · simp_all
  · intro h
    have h2 : (audioTick last cur false).2 = last := by
      unfold audioTick
      split <;> rfl
    rw [h2]
    unfold audioTick at h ⊢
    split at h
    · simp_all
    · simp_all

/-- Witness for C10 at last = 0, current = 5: the failed tick keeps 0, and
the retry with the same reading reports again. -/
theorem sensor_last_reported_only_on_success_witness :
    (luxTick ((luxTick 0 5 false).2) 5 true).1 = true ∧
    (audioTick ((audioTick 0 5 false).2) 5 true).1 = true :=
  ⟨(sensor_last_reported_only_on_success 0 5).2.2.2.2.1
      (by norm_num [luxTick, LUX_THRESHOLD]),
   (sensor_last_reported_only_on_success 0 5).2.2.2.2.2
      (by norm_num [audioTick, AUDIO_THRESHOLD])⟩

/-! ## Mood fact tables

The tables `fact_mood` (migration 002, extended by 006 with `led_color`)
and `fact_mood_ml` (migration 007) both carry the constraint
`UNIQUE (parent_path, ci_rn)`.  A table is embedded as its list of rows in
insertion order; an insert that would violate the constraint leaves the
table unchanged (the row is rejected by PostgreSQL, or skipped by an
`ON CONFLICT DO NOTHING` upsert — either way no row is added). -/

/-- One row of `fact_mood` / `fact_mood_ml`. -/
structure MoodRow where
  parentPath : String
  ciRn : String
  score : Int
  label : String
  ledColor : String
deriving Repr, DecidableEq

/-- The natural key `(parent_path, ci_rn)` of the mood tables. -/
def sameMoodKey (r x : MoodRow) : Bool :=
  x.parentPath == r.parentPath && x.ciRn == r.ciRn

/-- Insert into `fact_mood` under its `UNIQUE (parent_path, ci_rn)`
constraint. -/
def factMoodInsert (t : List MoodRow) (r : MoodRow) : List MoodRow :=
  if t.any (sameMoodKey r) then t else t ++ [r]

/-- Insert into `fact_mood_ml` under its `UNIQUE (parent_path, ci_rn)`
constraint (migration 007 mirrors migration 002). -/
def factMoodMlInsert (t : List MoodRow) (r : MoodRow) : List MoodRow :=
  if t.any (sameMoodKey r) then t else t ++ [r]

/-- Number of rows of the table holding a given `(parent_path, ci_rn)`
key. -/
def moodKeyCount (t : List MoodRow) (pp ci : String) : Nat :=
  (t.filter (fun x => x.parentPath == pp && x.ciRn == ci)).length

theorem moodKeyCount_zero_any (t : List MoodRow) (r : MoodRow)
    (h : moodKeyCount t r.parentPath r.ciRn = 0) :
    t.any (sameMoodKey r) = false := by
  rw [List.any_eq_false]
  intro x hx
  have hnil := List.length_eq_zero.mp h
  have := List.filter_eq_nil_iff.mp hnil x hx
  simpa [sameMoodKey] using this

theorem moodInsert_pair_aux (t : List MoodRow) (r1 r2 : MoodRow)
    (h0 : moodKeyCount t r1.parentPath r1.ciRn = 0)
    (hp : r2.parentPath = r1.parentPath) (hc : r2.ciRn = r1.ciRn) :
    factMoodInsert t r1 = t ++ [r1] ∧
    factMoodInsert (t ++ [r1]) r2 = t ++ [r1] ∧
    moodKeyCount (t ++ [r1]) r1.parentPath r1.ciRn = 1 := by
  have hany := moodKeyCount_zero_any t r1 h0
  refine ⟨by simp [factMoodInsert, hany], ?_, ?_⟩
  · have : (t ++ [r1]).any (sameMoodKey r2) = true := by
      rw [List.any_eq_true]
      exact ⟨r1, by simp, by simp [sameMoodKey, hp, hc]⟩
    simp [factMoodInsert, this]
  · have hnil : t.filter (fun x => x.parentPath == r1.parentPath && x.ciRn == r1.ciRn) = [] :=
      List.length_eq_zero.mp h0
    simp [moodKeyCount, List.filter_append, hnil]

/-- C1: when the table holds no row with the key of `r1`, inserting `r1`
and then any `r2` with the same `(parent_path, ci_rn)` key leaves exactly
one row with that key in the table: the first insert succeeds (appends)
and the second is rejected or skipped, in `fact_mood` and in
`fact_mood_ml` alike. -/
theorem mood_insert_idempotent_per_key (t : List MoodRow) (r1 r2 : MoodRow)
    (h0 : moodKeyCount t r1.parentPath r1.ciRn = 0)
    (hp : r2.parentPath = r1.parentPath) (hc : r2.ciRn = r1.ciRn) :
    factMoodInsert t r1 = t ++ [r1] ∧
    factMoodInsert (factMoodInsert t r1) r2 = factMoodInsert t r1 ∧
    moodKeyCount (factMoodInsert (factMoodInsert t r1) r2)
        r1.parentPath r1.ciRn = 1 ∧
    factMoodMlInsert t r1 = t ++ [r1] ∧
    factMoodMlInsert (factMoodMlInsert t r1) r2 = factMoodMlInsert t r1 ∧
    moodKeyCount (factMoodMlInsert (factMoodMlInsert t r1) r2)
        r1.parentPath r1.ciRn = 1 := by
  obtain ⟨h1, h2, h3⟩ := moodInsert_pair_aux t r1 r2 h0 hp hc
  have g2 : factMoodInsert (factMoodInsert t r1) r2 = factMoodInsert t r1 := by
    rw [h1]
    exact h2
  have g3 : moodKeyCount (factMoodInsert (factMoodInsert t r1) r2)
      r1.parentPath r1.ciRn = 1 := by
    rw [h1, h2]
    exact h3
  exact ⟨h1, g2, g3, h1, g2, g3⟩

/-- Witness for C1: inserting the same concrete mood row twice into an
empty table leaves exactly one row. -/
theorem mood_insert_idempotent_per_key_witness :
    factMoodInsert [] ⟨"p", "c", 78, "focus", "#80FF00"⟩ =
        [⟨"p", "c", 78, "focus", "#80FF00"⟩] ∧
    factMoodInsert (factMoodInsert [] ⟨"p", "c", 78, "focus", "#80FF00"⟩)
        ⟨"p", "c", 78, "focus", "#80FF00"⟩ =
      factMoodInsert [] ⟨"p", "c", 78, "focus", "#80FF00"⟩ ∧
    moodKeyCount
        (factMoodInsert (factMoodInsert [] ⟨"p", "c", 78, "focus", "#80FF00"⟩)
          ⟨"p", "c", 78, "focus", "#80FF00"⟩) "p" "c" = 1 := by
  have h := mood_insert_idempotent_per_key []
      ⟨"p", "c", 78, "focus", "#80FF00"⟩ ⟨"p", "c", 78, "focus", "#80FF00"⟩
      rfl rfl rfl
  exact ⟨h.1, h.2.1, h.2.2.1⟩

/-! ## Telemetry fact table

`fact_telemetry` is created by the init SQL with
`UNIQUE (parent_path, ci_rn, metric_id)`; the later queue migration drops
that constraint (`DROP CONSTRAINT fact_telemetry_parent_path_ci_rn_metric_id_key`)
so that every notification can insert its own fact rows.  The schema is
embedded as the flag telling whether the uniqueness constraint is present,
and inserts consult that flag. -/

/-- One row of `fact_telemetry`. -/
structure TelemetryRow where
  parentPath : String
  ciRn : String
  metricId : Nat
  value : ℚ
deriving Repr, DecidableEq

/-- The part of the `fact_telemetry` schema the claims depend on: whether
`UNIQUE (parent_path, ci_rn, metric_id)` is in force. -/
structure TelemetrySchema where
  uniqueParentCiMetric : Bool
deriving Repr, DecidableEq

/-- Schema after the init SQL: the uniqueness constraint exists. -/
def initTelemetrySchema : TelemetrySchema :=
  { uniqueParentCiMetric := true }

/-- The queue migration that drops
`fact_telemetry_parent_path_ci_rn_metric_id_key`. -/
def dropTelemetryUniqueMigration (s : TelemetrySchema) : TelemetrySchema :=
  { s with uniqueParentCiMetric := false }

/-- Schema after all migrations have run. -/
def telemetrySchemaAfterMigrations : TelemetrySchema :=
  dropTelemetryUniqueMigration initTelemetrySchema

/-- The `(parent_path, ci_rn, metric_id)` key of `fact_telemetry`. -/
def sameTelemetryKey (r x : TelemetryRow) : Bool :=
  x.parentPath == r.parentPath && x.ciRn == r.ciRn && x.metricId == r.metricId

/-- Insert into `fact_telemetry` under the given schema: rejected only when
the uniqueness constraint is in force and a row with the same key exists. -/
def factTelemetryInsert (sch : TelemetrySchema) (t : List TelemetryRow)
    (r : TelemetryRow) : List TelemetryRow :=
  if sch.uniqueParentCiMetric && t.any (sameTelemetryKey r) then t else t ++ [r]

/-- Persisting one normalized envelope: one `fact_telemetry` row per
metric, inserted in order. -/
def persistEnvelope (sch : TelemetrySchema) (t : List TelemetryRow)
    (rows : List TelemetryRow) : List TelemetryRow :=
  rows.foldl (factTelemetryInsert sch) t

theorem persistEnvelope_final_append (t rows : List TelemetryRow) :
    persistEnvelope telemetrySchemaAfterMigrations t rows = t ++ rows := by
  induction rows generalizing t with
  | nil => simp [persistEnvelope]
  | cons r rs ih =>
    have hstep : factTelemetryInsert telemetrySchemaAfterMigrations t r = t ++ [r] := by
      simp [factTelemetryInsert, telemetrySchemaAfterMigrations,
        dropTelemetryUniqueMigration, initTelemetrySchema]
    show List.foldl (factTelemetryInsert telemetrySchemaAfterMigrations) t (r :: rs) =
      t ++ r :: rs
    rw [List.foldl_cons, hstep]
    have hih := ih (t ++ [r])
    simp only [persistEnvelope] at hih
    rw [hih]
    simp

/-- C5: after the migrations (the drop-uniqueness migration included) the
telemetry store keeps no uniqueness constraint on
`(parent_path, ci_rn, metric_id)`, and persisting the same normalized
envelope twice appends its rows twice — duplicates are retained, nothing
fails or is overwritten. -/
theorem telemetry_append_only_duplicates (t rows : List TelemetryRow) :
    telemetrySchemaAfterMigrations.uniqueParentCiMetric = false ∧
    persistEnvelope telemetrySchemaAfterMigrations
        (persistEnvelope telemetrySchemaAfterMigrations t rows) rows =
      t ++ rows ++ rows := by
  refine ⟨rfl, ?_⟩
  rw [persistEnvelope_final_append, persistEnvelope_final_append]

/-! ## Ingest queue

The table `ingest_queue` (queue SQL): defaults `attempts 0`,
`locked_until NULL`, `status 'queued'`; the status column is free text
annotated `queued|processing|done|failed`.  The operations that drive the
status state machine live in the ingest worker, whose source is not in the
tree; they are modelled from the spec (§4.2). -/

/-- One row of `ingest_queue`. -/
structure QueueEntry where
  id : Nat
  parentPath : String
  ciRn : String
  payload : String
  attempts : Nat
  lockedUntil : Option Nat
  status : String
deriving Repr, DecidableEq

/-- The status vocabulary annotated on the `status` column. -/
def allowedStatuses : List String :=
  ["queued", "processing", "done", "failed"]

/-- Enqueue: append one row with the column defaults of the `ingest_queue`
DDL — `attempts 0`, `locked_until NULL`, `status 'queued'` — and a fresh
serial id.  Total: it succeeds on every payload. -/
def enqueue (q : List QueueEntry) (pp ci payload : String) : List QueueEntry :=
  q ++ [{ id := q.length + 1, parentPath := pp, ciRn := ci,
          payload := payload, attempts := 0, lockedUntil := none,
          status := "queued" }]

/-- Modelled from the spec: eligibility of a row for `leaseNext` (§4.2) —
status `queued`, or status `processing` with an expired lease (a NULL
`locked_until` compares as not expired, as in SQL). -/
def leaseEligible (now : Nat) (e : QueueEntry) : Bool :=
  e.status == "queued" ||
    (e.status == "processing" &&
      (match e.lockedUntil with
       | some lu => decide (lu ≤ now)
       | none => false))

/-- Modelled from the spec: `leaseNext(leaseDuration)` (§4.2) — the oldest
eligible entry (the list is kept in `received_at` order) moves to
`processing` with `locked_until = now + leaseDuration`. -/
def leaseNext (now dur : Nat) : List QueueEntry → List QueueEntry
  | [] => []
  | e :: rest =>
    if leaseEligible now e then
      { e with status := "processing", lockedUntil := some (now + dur) } :: rest
    else
      e :: leaseNext now dur rest

/-- Modelled from the spec: `ack(id)` (§4.2) — the entry moves to `done`. -/
def ack (i : Nat) (q : List QueueEntry) : List QueueEntry :=
  q.map fun e => if e.id == i then { e with status := "done" } else e

/-- Modelled from the spec: `nack(id, error)` (§4.2) — `attempts`
increments; at `maxAttempts` the entry moves to `failed`, otherwise back to
`queued` with the lease cleared. -/
def nack (i maxAttempts : Nat) (q : List QueueEntry) : List QueueEntry :=
  q.map fun e =>
    if e.id == i then
      (if maxAttempts ≤ e.attempts + 1 then
        { e with attempts := e.attempts + 1, status := "failed" }
      else
        { e with attempts := e.attempts + 1, status := "queued",
                 lockedUntil := none })
    else e

theorem leaseNext_status_closed (now dur : Nat) (q : List QueueEntry) :
    (∀ e ∈ q, e.status ∈ allowedStatuses) →
    ∀ e ∈ leaseNext now dur q, e.status ∈ allowedStatuses := by
  induction q with
  | nil =>
    intro _ e he
    simp [leaseNext] at he
  | cons a rest ih =>
    intro hq e he
    rw [leaseNext] at he
    split at he
    · rcases List.mem_cons.mp he with he | he
      · subst he
        simp [allowedStatuses]
      · exact hq e (List.mem_cons_of_mem a he)
    · rcases List.mem_cons.mp he with he | he
      · rw [he]
        exact hq a (List.mem_cons_self a rest)
      · exact ih (fun x hx => hq x (List.mem_cons_of_mem a hx)) e he

/-- C6: `enqueue` always succeeds — it appends exactly one entry carrying
status `queued`, `attempts` 0 and no lease — and each of the queue
operations keeps every entry's status inside
{queued, processing, done, failed}. -/
theorem enqueue_defaults_and_status_closed
    (q : List QueueEntry) (pp ci p : String) (now dur i m : Nat)
    (hq : ∀ e ∈ q, e.status ∈ allowedStatuses) :
    enqueue q pp ci p =
      q ++ [{ id := q.length + 1, parentPath := pp, ciRn := ci, payload := p,
              attempts := 0, lockedUntil := none, status := "queued" }] ∧
    (∀ e ∈ enqueue q pp ci p, e.status ∈ allowedStatuses) ∧
    (∀ e ∈ leaseNext now dur q, e.status ∈ allowedStatuses) ∧
    (∀ e ∈ ack i q, e.status ∈ allowedStatuses) ∧
    (∀ e ∈ nack i m q, e.status ∈ allowedStatuses) := by
  refine ⟨rfl, ?_, leaseNext_status_closed now dur q hq, ?_, ?_⟩
  · intro e he
    rw [enqueue, List.mem_append] at he
    rcases he with he | he
    · exact hq e he
    · simp only [List.mem_singleton] at he
      subst he
      simp [allowedStatuses]
  · intro e he
    rw [ack] at he
    rcases List.mem_map.mp he with ⟨x, hx, hxe⟩
    subst hxe
    split
    · simp [allowedStatuses]
    · exact hq x hx
  · intro e he
    rw [nack] at he
    rcases List.mem_map.mp he with ⟨x, hx, hxe⟩
    subst hxe
    split
    · split
      · simp [allowedStatuses]
      · simp [allowedStatuses]
    · exact hq x hx

/-- Witness for C6 on a concrete one-entry queue: the enqueue shape and the
closure of every operation, checked by evaluation. -/
theorem enqueue_defaults_and_status_closed_witness :
    enqueue [] "p" "c" "x" =
      [{ id := 1, parentPath := "p", ciRn := "c", payload := "x",
         attempts := 0, lockedUntil := none, status := "queued" }] ∧
    (∀ e ∈ enqueue [] "p" "c" "x", e.status ∈ allowedStatuses) := by
  have h := enqueue_defaults_and_status_closed [] "p" "c" "x" 0 30 1 5
      (by intro e he; simp at he)
  exact ⟨h.1, h.2.1⟩

/-! ## Mood score calibration

Modelled from the spec: the calibration step of the mood scoring service
(§4.5 step 5) — the service source (`app.py`) is not in the tree, only its
configuration documentation, which fixes the defaults `SOFTENING_CENTER`
60, `SOFTENING_FACTOR` 0.9 and `SCORE_BIAS` 10.  The blended score is
softened toward the center, lifted by the bias, clamped to [0, 100] and
rounded to an integer. -/

/-- Default of the `SOFTENING_CENTER` environment variable. -/
def SOFTENING_CENTER : ℚ := 60

/-- Default of the `SOFTENING_FACTOR` environment variable. -/
def SOFTENING_FACTOR : ℚ := 9 / 10

/-- Default of the `SCORE_BIAS` environment variable. -/
def SCORE_BIAS : ℚ := 10

/-- Modelled from the spec: the softening transform
`softened = center + (blended - center) * softeningFactor`. -/
def soften (center factor blended : ℚ) : ℚ :=
  center + (blended - center) * factor

/-- Clamp a score to [0, 100]. -/
def clampScore (x : ℚ) : ℚ :=
  min 100 (max 0 x)

/-- Modelled from the spec: the full calibration step — soften, add the
bias, clamp to [0, 100], round to an integer. -/
def calibrate (center factor bias blended : ℚ) : ℤ :=
  round (clampScore (soften center factor blended + bias))

/-- C8: with the documented defaults (center 60, factor 0.9, bias 10),
calibrating any blended score in [0, 100] — the extremes included — yields
an integer in [0, 100]. -/
theorem calibrate_in_range (blended : ℚ)
    (h0 : 0 ≤ blended) (h1 : blended ≤ 100) :
    0 ≤ calibrate SOFTENING_CENTER SOFTENING_FACTOR SCORE_BIAS blended ∧
      calibrate SOFTENING_CENTER SOFTENING_FACTOR SCORE_BIAS blended ≤ 100 := by
  have hlo : (0 : ℚ) ≤ clampScore (soften SOFTENING_CENTER SOFTENING_FACTOR blended + SCORE_BIAS) := by
    unfold clampScore
    exact le_min (by norm_num) (le_max_left 0 _)
  have hhi : clampScore (soften SOFTENING_CENTER SOFTENING_FACTOR blended + SCORE_BIAS) ≤ 100 :=
    min_le_left _ _
  unfold calibrate
  rw [round_eq]
  constructor
  · exact Int.le_floor.mpr (by push_cast; linarith)
  · exact Int.floor_le_iff.mpr (by push_cast; linarith)

/-- Witness for C8 at the extreme blended score 0 (calibrates to 16). -/
theorem calibrate_in_range_witness :
    0 ≤ calibrate SOFTENING_CENTER SOFTENING_FACTOR SCORE_BIAS 0 ∧
      calibrate SOFTENING_CENTER SOFTENING_FACTOR SCORE_BIAS 0 ≤ 100 :=
  calibrate_in_range 0 (by norm_num) (by norm_num)

end MoodMonitor
